import Mathlib

/-!
Verification of the Substack2Markdown scraper (`substack_scraper.py`) against its
natural-language specification.  The Python source is shallowly embedded: pure
helpers become Lean functions over `String`/`List`, the filesystem becomes an
association list from paths to contents, network fetches and the Selenium
browser become explicit oracles, and the scraping loop becomes structural
recursion over the discovered URL list.
-/

namespace Substack

/-! ## Python string primitives

Small executable models of the Python `str` operations the scraper uses, built
on `List Char` so that every definition reduces in the kernel.
-/

/-- Occurrence test of `needle` anywhere in `haystack` (helper for Python `in`). -/
def containsL (needle : List Char) : List Char → Bool
  | [] => needle.isEmpty
  | c :: rest => needle.isPrefixOf (c :: rest) || containsL needle rest

/-- Python `sub in s` (substring containment). -/
def pyContains (s sub : String) : Bool := containsL sub.data s.data

/-- Python `s.startswith(t)`. -/
def pyStartsWith (s t : String) : Bool := t.data.isPrefixOf s.data

/-- Python `s.endswith(t)`. -/
def pyEndsWith (s t : String) : Bool := t.data.isSuffixOf s.data

/-- Python `s.strip()` (whitespace at both ends). -/
def pyStrip (s : String) : String :=
  String.mk ((s.data.dropWhile Char.isWhitespace).reverse.dropWhile Char.isWhitespace).reverse

/-- Python `s.rstrip('/')`: drop every trailing `'/'`. -/
def rstripSlash (s : String) : String :=
  String.mk ((s.data.reverse.dropWhile (fun c => c == '/')).reverse)

/-- Python `s.isdigit()` restricted to ASCII digits (the scraper only meets
ASCII like-counts): true iff `s` is nonempty and all characters are digits. -/
def pyIsdigit (s : String) : Bool := !s.data.isEmpty && s.data.all Char.isDigit

/-- Split a character list on each non-overlapping occurrence of a nonempty
separator, left to right (the semantics of Python `s.split(sep)`).  The fuel
argument only makes the recursion structural: every step consumes at least one
character and one unit of fuel, so starting the fuel at the list's length never
exhausts it. -/
def splitOnFuel (sep : List Char) : Nat → List Char → List Char → List (List Char)
  | 0, l, acc => [acc.reverse ++ l]
  | _ + 1, [], acc => [acc.reverse]
  | fuel + 1, c :: rest, acc =>
    if sep.isPrefixOf (c :: rest) then
      acc.reverse :: splitOnFuel sep fuel (rest.drop (sep.length - 1)) []
    else splitOnFuel sep fuel rest (c :: acc)

def splitOnL (sep l : List Char) : List (List Char) := splitOnFuel sep l.length l []

/-- Python `s.split(sep)` for a nonempty separator. -/
def pySplit (s sep : String) : List String := (splitOnL sep.data s.data).map String.mk

/-- Python `sep.join(parts)`. -/
def pyJoinWith (sep : String) (parts : List String) : String :=
  match parts with
  | [] => ""
  | p :: ps => ps.foldl (fun acc q => acc ++ sep ++ q) p

/-- Python `s.replace(old, new)` for nonempty `old`,
i.e. `new.join(s.split(old))`. -/
def pyReplace (s old new : String) : String := pyJoinWith new (pySplit s old)

/-- Value of an all-digits character list as a number. -/
def digitsToNat (l : List Char) : Nat := l.foldl (fun n c => n * 10 + (c.toNat - 48)) 0

/-- Python `int(s)` on an all-ASCII-digits string; `none` otherwise. -/
def pyToNat (s : String) : Option Nat :=
  if !s.data.isEmpty && s.data.all Char.isDigit then some (digitsToNat s.data) else none

/-! ## URL parsing

Models of `urllib.parse.urlparse(url).netloc` / `.path` for the URL shapes the
scraper meets (`scheme://netloc/path`, optionally without a scheme). -/

/-- The netloc (host, possibly with port) of a URL: the part between `://` and
the first `/`, `?` or `#`; empty when the URL has no `://`. -/
def urlNetloc (url : String) : String :=
  match pySplit url "://" with
  | _ :: r :: rs =>
    let after := pyJoinWith "://" (r :: rs)
    String.mk (after.data.takeWhile (fun c => c != '/' && c != '?' && c != '#'))
  | _ => ""

/-- The path component of a URL: from the first `/` after the netloc up to the
first `?` or `#`; when the URL has no `://`, the whole string up to `?`/`#`
(as `urlparse` reports for scheme-less strings). -/
def urlPath (url : String) : String :=
  match pySplit url "://" with
  | _ :: r :: rs =>
    let after := pyJoinWith "://" (r :: rs)
    String.mk ((after.data.dropWhile (fun c => c != '/' && c != '?' && c != '#')).takeWhile
      (fun c => c != '?' && c != '#'))
  | _ => String.mk (url.data.takeWhile (fun c => c != '?' && c != '#'))

/-- `extract_main_part` (substack_scraper.py lines 36-44): split the URL's
netloc on `'.'`; a leading `www` is stripped, a bare `substack.` host collapses
to `"substack"`, otherwise the first label is the site identity. -/
def extract_main_part (url : String) : String :=
  let parts := pySplit (urlNetloc url) "."
  let p0 := parts.headD ""
  if p0 = "www" then (if parts.length > 1 then parts.getD 1 "" else p0)
  else if p0 = "substack" && parts.length > 1 then "substack"
  else p0

/-! ## ISO date parsing and formatting

Models of `datetime.fromisoformat` (for the `YYYY-MM-DDTHH:MM:SS±HH:MM` shapes
the scraper meets after its `"Z" -> "+00:00"` replacement; invalid input is
`none`, standing for the `ValueError` the source catches) and of
`strftime("%b %d, %Y")`. -/

def isLeapYear (y : Nat) : Bool := (y % 4 == 0 && y % 100 != 0) || y % 400 == 0

def daysInMonth (y m : Nat) : Nat :=
  if m = 2 then (if isLeapYear y then 29 else 28)
  else if m = 4 || m = 6 || m = 9 || m = 11 then 30
  else 31

/-- A two-character all-digit fragment whose value is below `hi`. -/
def validTwoDigitBelow (s : String) (hi : Nat) : Bool :=
  s.data.length = 2 && s.data.all Char.isDigit && digitsToNat s.data < hi

/-- Validity of an `HH:MM`, `HH:MM:SS` or `HH:MM:SS.ffffff` fragment (also
used for UTC offsets). -/
def validHMS (s : String) : Bool :=
  match pySplit s ":" with
  | [h] => validTwoDigitBelow h 24
  | [h, m] => validTwoDigitBelow h 24 && validTwoDigitBelow m 60
  | [h, m, sec] =>
    let secParts := pySplit sec "."
    validTwoDigitBelow h 24 && validTwoDigitBelow m 60 &&
    validTwoDigitBelow (secParts.headD "") 60 && secParts.length ≤ 2
  | _ => false

/-- Validity of a time-of-day with an optional `+HH:MM`/`-HH:MM` offset. -/
def validTimeWithOffset (s : String) : Bool :=
  if pyContains s "+" then
    match pySplit s "+" with
    | [t, off] => validHMS t && validHMS off
    | _ => false
  else if pyContains s "-" then
    match pySplit s "-" with
    | [t, off] => validHMS t && validHMS off
    | _ => false
  else validHMS s

/-- Validity of whatever follows the 10-character date: empty, or a `'T'`/`' '`
separator followed by a valid time. -/
def validRest (s : String) : Bool :=
  s.data.isEmpty ||
  ((s.data.headD ' ' == 'T' || s.data.headD ' ' == ' ') &&
    s.data.length > 1 && validTimeWithOffset (String.mk (s.data.drop 1)))

/-- `datetime.fromisoformat` reduced to the (year, month, day) triple the
scraper's `strftime` needs; `none` models the `ValueError` path. -/
def parseIsoDate (s : String) : Option (Nat × Nat × Nat) :=
  let datePart := String.mk (s.data.take 10)
  let restPart := String.mk (s.data.drop 10)
  match pySplit datePart "-" with
  | [y, m, d] =>
    if y.data.length = 4 && y.data.all Char.isDigit &&
       m.data.length = 2 && m.data.all Char.isDigit &&
       d.data.length = 2 && d.data.all Char.isDigit then
      let yn := digitsToNat y.data
      let mn := digitsToNat m.data
      let dn := digitsToNat d.data
      if 1 ≤ mn && mn ≤ 12 && 1 ≤ dn && dn ≤ daysInMonth yn mn && validRest restPart then
        some (yn, mn, dn)
      else none
    else none
  | _ => none

def monthAbbrev (m : Nat) : String :=
  ["Jan", "Feb", "Mar", "Apr", "May", "Jun",
   "Jul", "Aug", "Sep", "Oct", "Nov", "Dec"].getD (m - 1) ""

/-- Zero-padded two-digit rendering of a number (for `%d`). -/
def twoDigits (n : Nat) : String := if n < 10 then "0" ++ toString n else toString n

/-- `strftime("%b %d, %Y")`. -/
def formatBDY (y m d : Nat) : String :=
  monthAbbrev m ++ " " ++ twoDigits d ++ ", " ++ toString y

/-! ## The extractor

`BaseSubstackScraper.extract_post_data` (lines 293-344).  A fetched page is
embedded as the results of the five DOM queries the extractor performs
(`FetchedPage` is opaque per the spec, so each `select_one`/`find` result is an
oracle field).  The JSON-LD script is embedded as the result of `json.loads`:
`none` stands for a missing/empty script tag or a `json.JSONDecodeError`, and
`some m` for a successfully parsed object with string values. -/

structure Soup where
  titleElement : Option String
  subtitleElement : Option String
  dateElement : Option String
  ldJson : Option (List (String × String))
  likeCountElement : Option String
  contentElement : Option String
deriving DecidableEq

/-- Python `"k" in metadata` followed by `metadata["k"]`. -/
def lookupStr (key : String) (m : List (String × String)) : Option String :=
  (m.find? (fun kv => kv.1 == key)).map Prod.snd

/-- The JSON-LD date fallback (lines 312-323): look up `datePublished`, replace
`"Z"` with `"+00:00"`, parse as ISO, format as `%b %d, %Y`; `none` on any
failure (the source catches `JSONDecodeError`/`ValueError`/`KeyError`). -/
def ldDateFallback (soup : Soup) : Option String :=
  match soup.ldJson with
  | none => none
  | some metadata =>
    match lookupStr "datePublished" metadata with
    | none => none
    | some ds => (parseIsoDate (pyReplace ds "Z" "+00:00")).map (fun t => formatBDY t.1 t.2.1 t.2.2)

/-- `combine_metadata_and_content` (lines 274-291). -/
def combine_metadata_and_content (title subtitle date like_count content : String) : String :=
  let metadata := "# " ++ title ++ "\n\n"
  let metadata := if subtitle ≠ "" then metadata ++ "## " ++ subtitle ++ "\n\n" else metadata
  let metadata := metadata ++ "**" ++ date ++ "**\n\n" ++ "**Likes:** " ++ like_count ++ "\n\n"
  metadata ++ content

/-- The tuple `(title, subtitle, like_count, date, md_content)` the extractor
returns. -/
structure PostData where
  title : String
  subtitle : String
  like_count : String
  date : String
  md_content : String
deriving DecidableEq

/-- `extract_post_data` (lines 293-344).  `htmlToMd` abstracts the `html2text`
conversion performed by `html_to_md` (a library call configured with
`ignore_links = False`, `body_width = 0`). -/
def extract_post_data (htmlToMd : String → String) (soup : Soup) : PostData :=
  let title := match soup.titleElement with
    | some t => pyStrip t
    | none => "Untitled"
  let subtitle := match soup.subtitleElement with
    | some t => pyStrip t
    | none => ""
  let date1 := match soup.dateElement with
    | some t => pyStrip t
    | none => ""
  let date2 := if date1 = "" then (ldDateFallback soup).getD "" else date1
  let date := if date2 = "" then "Date not found" else date2
  let like_count := match soup.likeCountElement with
    | some t => if pyIsdigit (pyStrip t) then pyStrip t else "0"
    | none => "0"
  let content_html := (soup.contentElement).getD ""
  let md := htmlToMd content_html
  let md_content := combine_metadata_and_content title subtitle date like_count md
  { title := title, subtitle := subtitle, like_count := like_count,
    date := date, md_content := md_content }

example :
    (extract_post_data id
      { titleElement := none, subtitleElement := none, dateElement := none,
        ldJson := some [("datePublished", "2024-03-05T00:00:00Z")],
        likeCountElement := none, contentElement := none }).date = "Mar 05, 2024" := by
  decide

example :
    (extract_post_data id
      { titleElement := none, subtitleElement := none, dateElement := none,
        ldJson := none, likeCountElement := some " 42 ", contentElement := none }).like_count
      = "42" := by
  decide

/-! ## URL discovery

`get_all_post_urls`, `fetch_urls_from_sitemap`, `fetch_urls_from_feed` and
`filter_urls` (lines 133-183).  The two HTTP resources of the scraped site are
embedded as a `Network` oracle; `unreachable` stands for a non-OK response
(the source then returns `[]`), `ok urls` for a parsed XML document yielding
that URL list. -/

inductive FetchResult where
  | unreachable
  | ok (urls : List String)
deriving DecidableEq

structure Network where
  sitemap : FetchResult
  feed : FetchResult

/-- `fetch_urls_from_sitemap` (lines 142-155): the `<loc>` texts of
`sitemap.xml`, or `[]` when the response is not OK. -/
def fetch_urls_from_sitemap (net : Network) : List String :=
  match net.sitemap with
  | .unreachable => []
  | .ok urls => urls

/-- `fetch_urls_from_feed` (lines 157-176): the `<item><link>` texts of
`feed.xml`, or `[]` when the response is not OK. -/
def fetch_urls_from_feed (net : Network) : List String :=
  match net.feed with
  | .unreachable => []
  | .ok urls => urls

/-- `filter_urls` (lines 178-183): keep the URLs containing none of the
keywords. -/
def filter_urls (urls keywords : List String) : List String :=
  urls.filter (fun url => keywords.all (fun keyword => !pyContains url keyword))

/-- The keyword list set in `__init__` (line 126). -/
def scraperKeywords : List String := ["about", "archive", "podcast"]

/-- `get_all_post_urls` (lines 133-140): sitemap first, feed when the sitemap
yields an empty list, then the keyword filter. -/
def get_all_post_urls (net : Network) : List String :=
  let urls := fetch_urls_from_sitemap net
  let urls := if urls.isEmpty then fetch_urls_from_feed net else urls
  filter_urls urls scraperKeywords

/-! ## Constructor

`BaseSubstackScraper.__init__` (lines 108-131).  Directory creation
(`os.makedirs`) is an idempotent side effect on directories and is not part of
the observable state the claims mention. -/

structure ScraperInit where
  base_substack_url : String
  writer_name : String
  md_save_dir : String
  html_save_dir : String
  keywords : List String
  post_urls : List String
deriving DecidableEq

def scraper_init (net : Network) (base_substack_url md_save_dir html_save_dir : String)
    (skip_url_fetch : Bool) : ScraperInit :=
  let base_substack_url :=
    if pyEndsWith base_substack_url "/" then base_substack_url else base_substack_url ++ "/"
  let writer_name := extract_main_part base_substack_url
  let md_save_dir := md_save_dir ++ "/" ++ writer_name
  let html_save_dir := html_save_dir ++ "/" ++ writer_name
  let post_urls :=
    if skip_url_fetch || pyContains base_substack_url "/home/post/" ||
        pyContains base_substack_url "/p/" then []
    else get_all_post_urls net
  { base_substack_url := base_substack_url, writer_name := writer_name,
    md_save_dir := md_save_dir, html_save_dir := html_save_dir,
    keywords := scraperKeywords, post_urls := post_urls }

/-! ## Filesystem and persistence

The filesystem is an association list from file paths to contents; `FS.write`
models `open(path, 'w')` + `write` (create or truncate-and-overwrite). -/

abbrev FS := List (String × String)

def FS.lookup : FS → String → Option String
  | [], _ => none
  | (q, c) :: rest, p => if q = p then some c else FS.lookup rest p

/-- `os.path.exists` on our filesystem. -/
def pathExists (fs : FS) (p : String) : Bool := (FS.lookup fs p).isSome

/-- Writing a file: replace any existing binding for the path. -/
def FS.write (fs : FS) (p c : String) : FS := (p, c) :: fs.eraseP (fun e => e.1 == p)

/-- `os.path.join` for the relative, slash-free-suffix components the scraper
joins. -/
def pathJoin (a b : String) : String := a ++ "/" ++ b

/-- `save_to_file` (lines 197-213): skip (and report) when the path exists,
write otherwise.  The returned list is the printed output. -/
def save_to_file (fs : FS) (filepath content : String) : FS × List String :=
  if pathExists fs filepath then (fs, ["File already exists: " ++ filepath])
  else (FS.write fs filepath content, [])

/-- The HTML document shell built by `save_to_html_file` (lines 238-253),
with the computed stylesheet path and the content interpolated. -/
def htmlShell (cssPath content : String) : String :=
  "\n            <!DOCTYPE html>\n            <html lang=\"en\">\n            <head>\n" ++
  "                <meta charset=\"UTF-8\">\n" ++
  "                <meta name=\"viewport\" content=\"width=device-width, initial-scale=1.0\">\n" ++
  "                <title>Markdown Content</title>\n" ++
  "                <link rel=\"stylesheet\" href=\"" ++ cssPath ++ "\">\n" ++
  "            </head>\n            <body>\n" ++
  "                <main class=\"markdown-content\">\n                " ++ content ++
  "\n                </main>\n            </body>\n            </html>\n        "

/-- `save_to_html_file` (lines 223-256): wrap the content in the document
shell and write it unconditionally (there is no existence check in this
method).  `cssPath` is the `os.path.relpath` result for the external
stylesheet, an environment-dependent path computation taken as an input. -/
def save_to_html_file (fs : FS) (filepath cssPath content : String) : FS :=
  FS.write fs filepath (htmlShell cssPath content)

/-- `get_filename_from_url` (lines 258-272): last `/`-separated segment of the
URL plus the extension. -/
def get_filename_from_url (url filetype : String) : String :=
  let filetype := if pyStartsWith filetype "." then filetype else "." ++ filetype
  (pySplit url "/").getLastD "" ++ filetype

/-! ## The per-site index

`save_essays_data_to_json` (lines 351-365): read the existing JSON array if
the file exists, append the batch records not already present, write the
merged array back.  A record is one entry of the `essays_data` list. -/

structure EssayData where
  title : String
  subtitle : String
  like_count : String
  date : String
  file_link : String
  html_link : String
deriving DecidableEq

/-- The index content `save_essays_data_to_json` writes: `existing` is the
parsed current file (`none` when the file does not exist, in which case the
batch is written as is). -/
def mergeEssays (existing : Option (List EssayData)) (batch : List EssayData) :
    List EssayData :=
  match existing with
  | none => batch
  | some ex => ex ++ batch.filter (fun d => decide (d ∉ ex))

/-! ## Authenticated fetch

`PremiumSubstackScraper.get_url_soup` (lines 615-677).  The Selenium
navigation is embedded as a `NavResult` oracle: the URL the browser actually
landed on, whether one of the three post-content markers
(`post-title`/`paywall-title`/`available-content`) appeared before the wait
timed out, and the page source.  The result is `Except`: `error` models the
raised `ValueError`. -/

structure NavResult where
  current : String
  hasPostElements : Bool
  pageSource : String

/-- The `_home_paths` tuple (line 639). -/
def homePaths : List String := ["", "/home", "/inbox", "/feed"]

/-- The landed-path test of lines 640-641: a home/inbox/feed surface, or a
`/home...` path without `/post/`. -/
def isHomeSurface (currentPath : String) : Bool :=
  homePaths.contains currentPath ||
    (pyStartsWith currentPath "/home" && !pyContains currentPath "/post/")

/-- `get_url_soup` of the premium scraper: sign-in redirect check, home
redirect check, content-marker wait, then the page source. -/
def premium_get_url_soup (url : String) (nav : NavResult) : Except String String :=
  if pyContains nav.current "sign-in" then
    .error "Browser was redirected to sign-in. Login may have expired or failed."
  else
    let current_path := rstripSlash (urlPath nav.current)
    let target_path := rstripSlash (urlPath url)
    if isHomeSurface current_path && !homePaths.contains target_path then
      .error ("Redirected to " ++ nav.current ++ " instead of the requested post.")
    else if !nav.hasPostElements && (pyContains nav.current "/home" &&
        !pyContains nav.current "/post/" && !pyContains nav.current "p-") then
      .error "Landed on Substack home instead of the post."
    else .ok nav.pageSource

/-! ## The orchestrating loop

`scrape_posts` (lines 408-450) with `scrape_single_post`'s collaborators.
`FetchOutcome` is the oracle for `get_url_soup`: it may raise (any exception
inside the per-URL `try`), return `None` (the anonymous scraper's paywall
skip), or return a page. -/

inductive FetchOutcome where
  | raise (msg : String)
  | noSoup
  | page (soup : Soup)
deriving DecidableEq

/-- The constant `BASE_HTML_DIR` (line 30), used by `generate_html_file`. -/
def BASE_HTML_DIR : String := "substack_html_pages"

/-- Scraper configuration: the directory fields set by `__init__` plus the
library collaborators (`html2text`, `markdown.markdown`, `os.path.relpath`
for the stylesheet, and the author-page templating of `generate_html_file`)
abstracted as functions. -/
structure ScraperCfg where
  md_save_dir : String
  html_save_dir : String
  writer_name : String
  htmlToMd : String → String
  mdToHtml : String → String
  cssPathFor : String → String
  renderAuthorPage : List EssayData → String

/-- The mutable state a run threads: the filesystem, the parsed per-site index
file (`none` when absent), the printed log, and the loop's local variables
`essays_data`, `count` and `total`.  `visited` counts loop iterations (the
candidates the loop has looked at); it instruments the loop and affects
nothing. -/
structure ScrapeState where
  fs : FS
  index : Option (List EssayData)
  log : List String
  essays : List EssayData
  count : Nat
  total : Nat
  visited : Nat

/-- The Markdown artifact path for a URL. -/
def mdPathFor (cfg : ScraperCfg) (url : String) : String :=
  pathJoin cfg.md_save_dir (get_filename_from_url url ".md")

/-- The HTML artifact path for a URL. -/
def htmlPathFor (cfg : ScraperCfg) (url : String) : String :=
  pathJoin cfg.html_save_dir (get_filename_from_url url ".html")

/-- One iteration of the `for url in tqdm(self.post_urls)` body (lines
415-445), up to but excluding the cap check.  The returned flag tells whether
control reached the cap check (it does not after the `continue` of line 426,
which skips the `count` increment as well). -/
def scrapeStep (cfg : ScraperCfg) (fetch : String → FetchOutcome) (url : String)
    (st : ScrapeState) : ScrapeState × Bool :=
  let md_filepath := mdPathFor cfg url
  let html_filepath := htmlPathFor cfg url
  if !pathExists st.fs md_filepath then
    match fetch url with
    | .raise msg =>
      ({ st with
          log := st.log ++ ["Error scraping post: " ++ msg]
          count := st.count + 1
          visited := st.visited + 1 }, true)
    | .noSoup =>
      ({ st with
          total := st.total + 1
          visited := st.visited + 1 }, false)
    | .page soup =>
      let r := extract_post_data cfg.htmlToMd soup
      let saved := save_to_file st.fs md_filepath r.md_content
      let fs2 := save_to_html_file saved.1 html_filepath (cfg.cssPathFor html_filepath)
        (cfg.mdToHtml r.md_content)
      ({ st with
          fs := fs2
          log := st.log ++ saved.2
          essays := st.essays ++ [{ title := r.title, subtitle := r.subtitle,
                                    like_count := r.like_count, date := r.date,
                                    file_link := md_filepath, html_link := html_filepath }]
          count := st.count + 1
          visited := st.visited + 1 }, true)
  else
    ({ st with
        log := st.log ++ ["File already exists: " ++ md_filepath]
        count := st.count + 1
        visited := st.visited + 1 }, true)

/-- The loop of lines 415-448, including the cap check of lines 447-448. -/
def scrape_posts_loop (cfg : ScraperCfg) (fetch : String → FetchOutcome)
    (num_posts_to_scrape : Nat) : List String → ScrapeState → ScrapeState
  | [], st => st
  | url :: rest, st =>
    let step := scrapeStep cfg fetch url st
    if step.2 && (num_posts_to_scrape != 0) && (step.1.count == num_posts_to_scrape) then
      step.1
    else scrape_posts_loop cfg fetch num_posts_to_scrape rest step.1

/-- `generate_html_file` (lines 47-104): regenerate the browsable author page
from the index under `BASE_HTML_DIR`, overwriting it.  The template reading
and link-path rewriting are folded into `cfg.renderAuthorPage`. -/
def generate_html_file (cfg : ScraperCfg) (fs : FS) (essays : List EssayData) : FS :=
  FS.write fs (pathJoin BASE_HTML_DIR (cfg.writer_name ++ ".html"))
    (cfg.renderAuthorPage essays)

/-- `scrape_posts` (lines 408-450): reset the loop locals, run the loop over
the discovered URLs, merge the accumulated records into the index file
(`save_essays_data_to_json`, lines 351-365) and regenerate the author page. -/
def scrape_posts (cfg : ScraperCfg) (fetch : String → FetchOutcome)
    (num_posts_to_scrape : Nat) (post_urls : List String) (st : ScrapeState) : ScrapeState :=
  let st0 : ScrapeState :=
    { st with
      essays := []
      count := 0
      visited := 0
      total := if num_posts_to_scrape != 0 then num_posts_to_scrape else post_urls.length }
  let stF := scrape_posts_loop cfg fetch num_posts_to_scrape post_urls st0
  let merged := mergeEssays stF.index stF.essays
  { stF with index := some merged, fs := generate_html_file cfg stF.fs merged }

/-- Number of Markdown artifacts on the filesystem (entries whose path ends in
`.md`). -/
def countMd (fs : FS) : Nat := (fs.filter (fun e => pyEndsWith e.1 ".md")).length

/-! ## Concrete fixtures

Instantiations used by witnesses and counterexamples: a configuration for the
site `https://a.example/` with identity conversions for the library
collaborators, an empty starting state, and a page with every query missing. -/

def cfgA : ScraperCfg where
  md_save_dir := "substack_md_files/a"
  html_save_dir := "substack_html_pages/a"
  writer_name := "a"
  htmlToMd := id
  mdToHtml := id
  cssPathFor := fun _ => "../../assets/css/essay-styles.css"
  renderAuthorPage := fun _ => "AUTHOR PAGE"

def emptyState : ScrapeState where
  fs := []
  index := none
  log := []
  essays := []
  count := 0
  total := 0
  visited := 0

def soupEmpty : Soup where
  titleElement := none
  subtitleElement := none
  dateElement := none
  ldJson := none
  likeCountElement := none
  contentElement := none

def urlOne : String := "https://a.example/p/one"

def urlTwo : String := "https://a.example/p/two"

example :
    countMd (scrape_posts cfgA (fun _ => .page soupEmpty) 1 [urlOne, urlTwo] emptyState).fs
      = 1 := by decide

example :
    (scrape_posts cfgA (fun _ => .page soupEmpty) 1 [urlOne, urlTwo] emptyState).visited
      = 1 := by decide

example :
    (scrape_posts cfgA (fun _ => .page soupEmpty) 0 [urlOne, urlTwo] emptyState).log = [] := by
  decide

example :
    countMd (scrape_posts cfgA (fun _ => .page soupEmpty) 0 [urlOne, urlTwo] emptyState).fs
      = 2 := by decide

example :
    (scrape_posts cfgA
      (fun u => if u = urlOne then .raise "boom" else .page soupEmpty)
      0 [urlOne, urlTwo] emptyState).log = ["Error scraping post: boom"] := by decide

example :
    pathExists (scrape_posts cfgA
      (fun u => if u = urlOne then .raise "boom" else .page soupEmpty)
      0 [urlOne, urlTwo] emptyState).fs (mdPathFor cfgA urlTwo) = true := by decide

example : mdPathFor cfgA urlOne = "substack_md_files/a/one.md" := by decide

/-- True when a fetch result is the raised-error case. -/
def isFetchError (r : Except String String) : Bool :=
  match r with
  | .error _ => true
  | .ok _ => false

/-- A network whose sitemap lists the same post URL twice. -/
def netDup : Network where
  sitemap := .ok [urlOne, urlOne]
  feed := .unreachable

/-- A network with an unreachable sitemap and a two-post feed. -/
def netFeedOnly : Network where
  sitemap := .unreachable
  feed := .ok [urlOne, urlTwo]

/-- A page whose like-count label text is numeric only after stripping. -/
def soupLike : Soup :=
  { soupEmpty with likeCountElement := some " 42 " }

/-- A page whose JSON-LD parses but has no `datePublished` key. -/
def soupNoKey : Soup :=
  { soupEmpty with ldJson := some [("headline", "x")] }

/-- A page whose JSON-LD `datePublished` is not a parseable timestamp. -/
def soupBadDate : Soup :=
  { soupEmpty with ldJson := some [("datePublished", "not-a-date")] }

/-- An oracle that raises on the first post URL and succeeds elsewhere. -/
def fetchBoom : String → FetchOutcome :=
  fun u => if u = urlOne then .raise "boom" else .page soupEmpty

/-- A filesystem already holding an HTML artifact. -/
def fsHtmlOld : FS := [("substack_html_pages/a/one.html", "OLD")]

/-- A sample index record. -/
def essayOne : EssayData where
  title := "One"
  subtitle := ""
  like_count := "0"
  date := "Date not found"
  file_link := "substack_md_files/a/one.md"
  html_link := "substack_html_pages/a/one.html"

/-- A second, distinct index record. -/
def essayTwo : EssayData where
  title := "Two"
  subtitle := ""
  like_count := "3"
  date := "Date not found"
  file_link := "substack_md_files/a/two.md"
  html_link := "substack_html_pages/a/two.html"

/-! ## Helper lemmas -/

theorem isPrefixOf_append_self (l m : List Char) : l.isPrefixOf (l ++ m) = true := by
  induction l with
  | nil => cases m <;> rfl
  | cons c cs ih => simp [List.isPrefixOf, ih]

theorem pyEndsWith_append_self (s t : String) : pyEndsWith (s ++ t) t = true := by
  rcases s with ⟨ls⟩; rcases t with ⟨lt⟩
  unfold pyEndsWith List.isSuffixOf
  show lt.reverse.isPrefixOf (ls ++ lt).reverse = true
  rw [List.reverse_append]
  exact isPrefixOf_append_self _ _

theorem pyEndsWith_append_html_not_md (a b : String) :
    pyEndsWith (a ++ (b ++ ".html")) ".md" = false := by
  rcases a with ⟨la⟩; rcases b with ⟨lb⟩
  have h1 : (String.mk la ++ (String.mk lb ++ ".html")).data
      = la ++ (lb ++ ('.' :: 'h' :: 't' :: 'm' :: 'l' :: [])) := rfl
  unfold pyEndsWith List.isSuffixOf
  rw [h1, List.reverse_append, List.reverse_append]
  rfl

theorem countMd_write_le (fs : FS) (p c : String) :
    countMd (FS.write fs p c) ≤ countMd fs + 1 := by
  have hsub : (fs.eraseP (fun e => e.1 == p)).Sublist fs := List.eraseP_sublist fs
  have hlen := (hsub.filter (fun e => pyEndsWith e.1 ".md")).length_le
  unfold countMd FS.write
  rw [List.filter_cons]
  split
  · simp only [List.length_cons]
    omega
  · omega

theorem countMd_write_not_md (fs : FS) (p c : String) (h : pyEndsWith p ".md" = false) :
    countMd (FS.write fs p c) ≤ countMd fs := by
  have hsub : (fs.eraseP (fun e => e.1 == p)).Sublist fs := List.eraseP_sublist fs
  have hlen := (hsub.filter (fun e => pyEndsWith e.1 ".md")).length_le
  unfold countMd FS.write
  rw [List.filter_cons]
  split
  · simp_all
  · omega

theorem countMd_save_to_file_le (fs : FS) (p c : String) :
    countMd (save_to_file fs p c).1 ≤ countMd fs + 1 := by
  unfold save_to_file
  split
  · show countMd fs ≤ countMd fs + 1
    omega
  · exact countMd_write_le fs p c

theorem htmlPathFor_not_md (cfg : ScraperCfg) (url : String) :
    pyEndsWith (htmlPathFor cfg url) ".md" = false :=
  pyEndsWith_append_html_not_md (cfg.html_save_dir ++ "/") ((pySplit url "/").getLastD "")

/-! ## Claim theorems -/

/-- C6: when the sitemap source is unreachable or yields an empty URL list
(both make `fetch_urls_from_sitemap` return `[]`), discovery returns the feed
source's list after keyword filtering; when the feed is also unusable the
result is the empty list — `get_all_post_urls` is total, so this is a value,
not an error. -/
theorem discovery_fallback (net : Network) :
    (fetch_urls_from_sitemap net = [] →
      get_all_post_urls net = filter_urls (fetch_urls_from_feed net) scraperKeywords) ∧
    (fetch_urls_from_sitemap net = [] → fetch_urls_from_feed net = [] →
      get_all_post_urls net = []) := by
  constructor
  · intro h
    simp [get_all_post_urls, h]
  · intro h h2
    simp [get_all_post_urls, h, h2, filter_urls]

theorem discovery_fallback_witness :
    fetch_urls_from_sitemap netFeedOnly = [] ∧
    get_all_post_urls netFeedOnly
      = filter_urls (fetch_urls_from_feed netFeedOnly) scraperKeywords :=
  ⟨by decide, (discovery_fallback netFeedOnly).1 (by decide)⟩

/-- C9 counterexample: discovery performs no deduplication — a sitemap listing
the same post URL twice yields a working set with a duplicate. -/
theorem discovery_duplicates_cex :
    get_all_post_urls netDup = [urlOne, urlOne] ∧
    ¬ (get_all_post_urls netDup).Nodup := by
  constructor
  · decide
  · decide

/-- C9 amended: no URL of the discovery result contains `about`, `archive` or
`podcast` as a substring; the result is duplicate-free whenever the source
lists are (the code never deduplicates, so distinctness is inherited, not
enforced). -/
theorem discovery_filter_props (net : Network) :
    (∀ url ∈ get_all_post_urls net, ∀ keyword ∈ scraperKeywords,
      pyContains url keyword = false) ∧
    ((fetch_urls_from_sitemap net).Nodup → (fetch_urls_from_feed net).Nodup →
      (get_all_post_urls net).Nodup) := by
  constructor
  · intro url hurl keyword hkw
    unfold get_all_post_urls filter_urls at hurl
    have hmem := List.of_mem_filter hurl
    rw [List.all_eq_true] at hmem
    have := hmem keyword hkw
    simpa using this
  · intro h1 h2
    have hrw : get_all_post_urls net
        = filter_urls (if (fetch_urls_from_sitemap net).isEmpty then fetch_urls_from_feed net
            else fetch_urls_from_sitemap net) scraperKeywords := rfl
    rw [hrw]
    unfold filter_urls
    split
    · exact h2.filter _
    · exact h1.filter _

theorem discovery_filter_props_witness :
    (get_all_post_urls netFeedOnly).Nodup :=
  (discovery_filter_props netFeedOnly).2 (by decide) (by decide)

/-- C4: an authenticated fetch of a URL whose path (trailing slashes
stripped) is not a home/inbox/feed path, that lands on a home/inbox/feed
surface (landed path empty, `/home`, `/inbox` or `/feed`, or a `/home...`
path without `/post/`), raises an error rather than returning the landed
page's content. -/
theorem premium_redirect_raises (url : String) (nav : NavResult)
    (htarget : rstripSlash (urlPath url) ∉ homePaths)
    (hlanded : isHomeSurface (rstripSlash (urlPath nav.current)) = true) :
    isFetchError (premium_get_url_soup url nav) = true := by
  unfold premium_get_url_soup
  cases hsign : pyContains nav.current "sign-in" with
  | true => simp [hsign, isFetchError]
  | false => simp [hsign, hlanded, htarget, isFetchError]

theorem premium_redirect_raises_witness :
    rstripSlash (urlPath "https://a.example/p/one") ∉ homePaths ∧
    isHomeSurface (rstripSlash (urlPath "https://substack.com/home")) = true ∧
    isFetchError (premium_get_url_soup "https://a.example/p/one"
      { current := "https://substack.com/home", hasPostElements := false,
        pageSource := "<html></html>" }) = true :=
  ⟨by decide, by decide,
    premium_redirect_raises "https://a.example/p/one"
      { current := "https://substack.com/home", hasPostElements := false,
        pageSource := "<html></html>" } (by decide) (by decide)⟩

/-- C8: on a page with no matching date element whose JSON-LD object is
exactly `{"datePublished": "2024-03-05T00:00:00Z"}`, the extracted date is the
normalized short form `"Mar 05, 2024"`, whatever the other queries return. -/
theorem extract_date_ld_json_format (htmlToMd : String → String)
    (t s lc ct : Option String) :
    (extract_post_data htmlToMd
      { titleElement := t, subtitleElement := s, dateElement := none,
        ldJson := some [("datePublished", "2024-03-05T00:00:00Z")],
        likeCountElement := lc, contentElement := ct }).date = "Mar 05, 2024" := by
  rfl

/-- C10: constructing a scraper from a base URL without a trailing slash and
from the same URL with one produces identical state — the same normalized
`base_substack_url`, the same `writer_name`, the same save directories, and
the same discovered URL list. -/
theorem init_trailing_slash (net : Network) (b md_dir html_dir : String) (skip : Bool)
    (h : pyEndsWith b "/" = false) :
    scraper_init net b md_dir html_dir skip
      = scraper_init net (b ++ "/") md_dir html_dir skip := by
  unfold scraper_init
  rw [h, pyEndsWith_append_self]
  rfl

theorem init_trailing_slash_witness :
    pyEndsWith "https://www.thefitzwilliam.com" "/" = false ∧
    scraper_init netFeedOnly "https://www.thefitzwilliam.com" "substack_md_files"
        "substack_html_pages" false
      = scraper_init netFeedOnly ("https://www.thefitzwilliam.com" ++ "/") "substack_md_files"
        "substack_html_pages" false :=
  ⟨by decide,
    init_trailing_slash netFeedOnly "https://www.thefitzwilliam.com" "substack_md_files"
      "substack_html_pages" false (by decide)⟩

/-- C2 counterexample: `save_to_html_file` has no existence check — saving to
an HTML path that already exists replaces the file's content instead of
skipping. -/
theorem save_to_html_overwrites_cex :
    pathExists fsHtmlOld "substack_html_pages/a/one.html" = true ∧
    FS.lookup (save_to_html_file fsHtmlOld "substack_html_pages/a/one.html"
        "../../assets/css/essay-styles.css" "NEW") "substack_html_pages/a/one.html"
      ≠ some "OLD" := by
  constructor
  · decide
  · decide

/-- C2 amended: the Markdown save (`save_to_file`) skips an existing target,
leaves the filesystem unchanged and reports "already exists"; the HTML save
(`save_to_html_file`) writes its document shell unconditionally, overwriting
any existing file. -/
theorem save_artifacts_idempotence (fs : FS) (filepath content cssPath : String) :
    (pathExists fs filepath = true →
      save_to_file fs filepath content = (fs, ["File already exists: " ++ filepath])) ∧
    FS.lookup (save_to_html_file fs filepath cssPath content) filepath
      = some (htmlShell cssPath content) := by
  constructor
  · intro h
    simp [save_to_file, h]
  · simp [save_to_html_file, FS.write, FS.lookup]

theorem save_artifacts_idempotence_witness :
    save_to_file fsHtmlOld "substack_html_pages/a/one.html" "NEW"
      = (fsHtmlOld, ["File already exists: " ++ "substack_html_pages/a/one.html"]) :=
  (save_artifacts_idempotence fsHtmlOld "substack_html_pages/a/one.html" "NEW" "x").1
    (by decide)

/-- C3 counterexample: the merge filters the batch against the existing index
only, not against the records already appended from the same batch — a batch
holding the same record twice produces an index with two bit-identical
records. -/
theorem merge_duplicate_records_cex :
    mergeEssays (some []) [essayOne, essayOne] = [essayOne, essayOne] ∧
    ¬ (mergeEssays (some []) [essayOne, essayOne]).Nodup := by
  constructor
  · decide
  · decide

/-- C3 amended: the merge preserves every existing entry in its original
order, appends exactly the batch records not already present by full-field
equality (keeping any duplicates inside the batch itself), a missing index
file behaves as the empty index, the result is duplicate-free whenever the
existing index and the batch each are, and merging the same batch a second
time leaves the index unchanged. -/
theorem save_essays_merge_props (ex batch : List EssayData) :
    (mergeEssays (some ex) batch).take ex.length = ex ∧
    (mergeEssays (some ex) batch).drop ex.length = batch.filter (fun d => decide (d ∉ ex)) ∧
    mergeEssays none batch = mergeEssays (some []) batch ∧
    (ex.Nodup → batch.Nodup → (mergeEssays (some ex) batch).Nodup) ∧
    mergeEssays (some (mergeEssays (some ex) batch)) batch = mergeEssays (some ex) batch := by
  refine ⟨?_, ?_, ?_, ?_, ?_⟩
  · unfold mergeEssays
    rw [List.take_left]
  · unfold mergeEssays
    rw [List.drop_left]
  · unfold mergeEssays
    simp
  · intro hex hbatch
    unfold mergeEssays
    rw [List.nodup_append]
    refine ⟨hex, hbatch.filter _, ?_⟩
    intro a ha hafilter
    have := List.of_mem_filter hafilter
    simp at this
    exact this ha
  · have hnil : batch.filter
        (fun d => decide (d ∉ ex ++ batch.filter (fun d => decide (d ∉ ex)))) = [] := by
      rw [List.filter_eq_nil_iff]
      intro a ha
      simp only [decide_eq_true_eq, not_not, Decidable.not_not]
      by_cases hmem : a ∈ ex
      · exact List.mem_append_left _ hmem
      · refine List.mem_append_right _ ?_
        exact List.mem_filter.mpr ⟨ha, by simpa using hmem⟩
    have hred : mergeEssays (some (mergeEssays (some ex) batch)) batch
        = (ex ++ batch.filter (fun d => decide (d ∉ ex)))
          ++ batch.filter
            (fun d => decide (d ∉ ex ++ batch.filter (fun d => decide (d ∉ ex)))) := rfl
    rw [hred, hnil, List.append_nil]
    rfl

theorem save_essays_merge_props_witness :
    (mergeEssays (some [essayOne]) [essayTwo]).Nodup :=
  (save_essays_merge_props [essayOne] [essayTwo]).2.2.2.1 (by decide) (by decide)

/-- C5 counterexample: a like-count label whose text is numeric only after
stripping (`" 42 "`) yields the stripped text `"42"`, not the element's text
and not the claimed default `"0"`. -/
theorem extract_like_count_cex :
    (extract_post_data id soupLike).like_count = "42" ∧
    pyIsdigit " 42 " = false ∧
    ("42" : String) ≠ " 42 " ∧
    ("42" : String) ≠ "0" := by
  refine ⟨by decide, by decide, by decide, by decide⟩

/-- C5 amended: extraction is total and never raises on a missing field:
title defaults to "Untitled" when no heading matches, subtitle to "" when the
subtitle selector misses, date to "Date not found" when the date element is
missing or blank and the structured-data fallback fails — `ldDateFallback`
returning `none` covers every failure of the fallback chain: script tag
missing, empty or undecodable, `datePublished` absent, or its timestamp
unparseable — and like_count equals the label element's stripped text when
that stripped text is purely numeric, otherwise "0". -/
theorem extract_defaults (htmlToMd : String → String) (soup : Soup) :
    (soup.titleElement = none → (extract_post_data htmlToMd soup).title = "Untitled") ∧
    (soup.subtitleElement = none → (extract_post_data htmlToMd soup).subtitle = "") ∧
    (soup.dateElement = none → ldDateFallback soup = none →
      (extract_post_data htmlToMd soup).date = "Date not found") ∧
    (∀ t, soup.dateElement = some t → pyStrip t = "" → ldDateFallback soup = none →
      (extract_post_data htmlToMd soup).date = "Date not found") ∧
    (∀ t, soup.likeCountElement = some t →
      (extract_post_data htmlToMd soup).like_count
        = if pyIsdigit (pyStrip t) then pyStrip t else "0") ∧
    (soup.likeCountElement = none → (extract_post_data htmlToMd soup).like_count = "0") := by
  refine ⟨?_, ?_, ?_, ?_, ?_, ?_⟩
  · intro h
    simp [extract_post_data, h]
  · intro h
    simp [extract_post_data, h]
  · intro h hld
    simp [extract_post_data, h, hld]
  · intro t h hblank hld
    simp [extract_post_data, h, hblank, hld]
  · intro t h
    simp [extract_post_data, h]
  · intro h
    simp [extract_post_data, h]

theorem countMd_save_to_html_le (fs : FS) (p css c : String)
    (h : pyEndsWith p ".md" = false) :
    countMd (save_to_html_file fs p css c) ≤ countMd fs :=
  countMd_write_not_md fs p (htmlShell css c) h

theorem scrapeStep_facts (cfg : ScraperCfg) (fetch : String → FetchOutcome) (url : String)
    (st : ScrapeState) :
    countMd (scrapeStep cfg fetch url st).1.fs
      ≤ countMd st.fs + ((scrapeStep cfg fetch url st).1.count - st.count) ∧
    st.count ≤ (scrapeStep cfg fetch url st).1.count ∧
    (scrapeStep cfg fetch url st).1.count ≤ st.count + 1 ∧
    (scrapeStep cfg fetch url st).1.visited = st.visited + 1 ∧
    ((scrapeStep cfg fetch url st).2 = true →
      (scrapeStep cfg fetch url st).1.count = st.count + 1) ∧
    ((scrapeStep cfg fetch url st).2 = false →
      (scrapeStep cfg fetch url st).1.count = st.count ∧
      (scrapeStep cfg fetch url st).1.fs = st.fs) := by
  by_cases hpe : pathExists st.fs (mdPathFor cfg url) = true
  · have hstep : scrapeStep cfg fetch url st
        = ({ st with
            log := st.log ++ ["File already exists: " ++ mdPathFor cfg url]
            count := st.count + 1
            visited := st.visited + 1 }, true) := by
      simp [scrapeStep, hpe]
    rw [hstep]
    simp
  · have hpe' : pathExists st.fs (mdPathFor cfg url) = false := by
      simpa using hpe
    cases hf : fetch url with
    | raise msg =>
      have hstep : scrapeStep cfg fetch url st
          = ({ st with
              log := st.log ++ ["Error scraping post: " ++ msg]
              count := st.count + 1
              visited := st.visited + 1 }, true) := by
        simp [scrapeStep, hpe', hf]
      rw [hstep]
      simp
    | noSoup =>
      have hstep : scrapeStep cfg fetch url st
          = ({ st with
              total := st.total + 1
              visited := st.visited + 1 }, false) := by
        simp [scrapeStep, hpe', hf]
      rw [hstep]
      simp
    | page soup =>
      have hstep : scrapeStep cfg fetch url st
          = ({ st with
              fs := save_to_html_file
                (save_to_file st.fs (mdPathFor cfg url)
                  (extract_post_data cfg.htmlToMd soup).md_content).1
                (htmlPathFor cfg url) (cfg.cssPathFor (htmlPathFor cfg url))
                (cfg.mdToHtml (extract_post_data cfg.htmlToMd soup).md_content)
              log := st.log ++ (save_to_file st.fs (mdPathFor cfg url)
                  (extract_post_data cfg.htmlToMd soup).md_content).2
              essays := st.essays ++
                [{ title := (extract_post_data cfg.htmlToMd soup).title,
                   subtitle := (extract_post_data cfg.htmlToMd soup).subtitle,
                   like_count := (extract_post_data cfg.htmlToMd soup).like_count,
                   date := (extract_post_data cfg.htmlToMd soup).date,
                   file_link := mdPathFor cfg url,
                   html_link := htmlPathFor cfg url }]
              count := st.count + 1
              visited := st.visited + 1 }, true) := by
        simp [scrapeStep, hpe', hf]
      rw [hstep]
      have hb : countMd (save_to_html_file
          (save_to_file st.fs (mdPathFor cfg url)
            (extract_post_data cfg.htmlToMd soup).md_content).1
          (htmlPathFor cfg url) (cfg.cssPathFor (htmlPathFor cfg url))
          (cfg.mdToHtml (extract_post_data cfg.htmlToMd soup).md_content))
          ≤ countMd st.fs + 1 :=
        le_trans (countMd_save_to_html_le _ _ _ _ (htmlPathFor_not_md cfg url))
          (countMd_save_to_file_le _ _ _)
      refine ⟨?_, by simp, by simp, by simp, by simp, by simp⟩
      simpa using hb

theorem scrape_loop_bound (cfg : ScraperCfg) (fetch : String → FetchOutcome) (N : Nat)
    (hN : N ≠ 0) :
    ∀ (urls : List String) (st : ScrapeState), st.count < N →
      countMd (scrape_posts_loop cfg fetch N urls st).fs ≤ countMd st.fs + (N - st.count) ∧
      (scrape_posts_loop cfg fetch N urls st).visited ≤ st.visited + urls.length := by
  intro urls
  induction urls with
  | nil =>
    intro st h
    refine ⟨?_, ?_⟩
    · show countMd st.fs ≤ countMd st.fs + (N - st.count)
      omega
    · show st.visited ≤ st.visited + 0
      omega
  | cons url rest ih =>
    intro st hcount
    obtain ⟨h1, h2, h3, h4, h5, h6⟩ := scrapeStep_facts cfg fetch url st
    have heq : scrape_posts_loop cfg fetch N (url :: rest) st
        = if (scrapeStep cfg fetch url st).2 && (N != 0) &&
              ((scrapeStep cfg fetch url st).1.count == N) then
            (scrapeStep cfg fetch url st).1
          else scrape_posts_loop cfg fetch N rest (scrapeStep cfg fetch url st).1 := rfl
    rw [heq]
    by_cases hbr : ((scrapeStep cfg fetch url st).2 && (N != 0) &&
        ((scrapeStep cfg fetch url st).1.count == N)) = true
    · rw [if_pos hbr]
      have hcN : (scrapeStep cfg fetch url st).1.count = N := by
        have := (Bool.and_eq_true _ _).mp hbr
        exact beq_iff_eq.mp this.2
      refine ⟨by omega, ?_⟩
      simp only [List.length_cons]
      omega
    · rw [if_neg hbr]
      have hlt : (scrapeStep cfg fetch url st).1.count < N := by
        cases hs2 : (scrapeStep cfg fetch url st).2 with
        | false => have := h6 hs2; omega
        | true =>
          have hc' := h5 hs2
          have hne : (scrapeStep cfg fetch url st).1.count ≠ N := by
            intro hcn
            apply hbr
            simp [hs2, hN, hcn]
          omega
      obtain ⟨ih1, ih2⟩ := ih (scrapeStep cfg fetch url st).1 hlt
      refine ⟨by omega, ?_⟩
      simp only [List.length_cons]
      omega

/-- C1: for a bulk run with cap `N > 0` over a URL list holding at least `N`
not-yet-saved URLs, `scrape_posts` creates at most `N` new Markdown files and
visits at most `post_urls.length` candidate URLs.  Termination is inherent:
the model is a total structural recursion over the URL list, mirroring the
source's `for` loop over `self.post_urls`. -/
theorem scrape_posts_cap_bound (cfg : ScraperCfg) (fetch : String → FetchOutcome)
    (urls : List String) (st : ScrapeState) (N : Nat) (hN : 0 < N)
    (_havail : N ≤ (urls.filter (fun u => !pathExists st.fs (mdPathFor cfg u))).length) :
    countMd (scrape_posts cfg fetch N urls st).fs ≤ countMd st.fs + N ∧
    (scrape_posts cfg fetch N urls st).visited ≤ urls.length := by
  have hN' : N ≠ 0 := by omega
  have hloop := scrape_loop_bound cfg fetch N hN' urls
    { st with
      essays := []
      count := 0
      visited := 0
      total := if N != 0 then N else urls.length } hN
  have h1 : countMd (scrape_posts_loop cfg fetch N urls
      { st with
        essays := []
        count := 0
        visited := 0
        total := if N != 0 then N else urls.length }).fs ≤ countMd st.fs + (N - 0) := hloop.1
  have h2 : (scrape_posts_loop cfg fetch N urls
      { st with
        essays := []
        count := 0
        visited := 0
        total := if N != 0 then N else urls.length }).visited ≤ 0 + urls.length := hloop.2
  constructor
  · have hfs : countMd (scrape_posts cfg fetch N urls st).fs
        ≤ countMd (scrape_posts_loop cfg fetch N urls
          { st with
            essays := []
            count := 0
            visited := 0
            total := if N != 0 then N else urls.length }).fs :=
      countMd_write_not_md _ _ _
        (pyEndsWith_append_html_not_md (BASE_HTML_DIR ++ "/") cfg.writer_name)
    omega
  · have hv : (scrape_posts cfg fetch N urls st).visited
        = (scrape_posts_loop cfg fetch N urls
          { st with
            essays := []
            count := 0
            visited := 0
            total := if N != 0 then N else urls.length }).visited := rfl
    omega

theorem scrape_posts_cap_bound_witness :
    0 < 1 ∧
    1 ≤ ([urlOne, urlTwo].filter
      (fun u => !pathExists emptyState.fs (mdPathFor cfgA u))).length ∧
    countMd (scrape_posts cfgA (fun _ => .noSoup) 1 [urlOne, urlTwo] emptyState).fs
      ≤ countMd emptyState.fs + 1 ∧
    (scrape_posts cfgA (fun _ => .noSoup) 1 [urlOne, urlTwo] emptyState).visited
      ≤ [urlOne, urlTwo].length :=
  ⟨by decide, by decide,
    (scrape_posts_cap_bound cfgA (fun _ => .noSoup) [urlOne, urlTwo] emptyState 1
      (by decide) (by decide)).1,
    (scrape_posts_cap_bound cfgA (fun _ => .noSoup) [urlOne, urlTwo] emptyState 1
      (by decide) (by decide)).2⟩

/-- C7 counterexample: a per-URL exception is caught and the run continues,
but the emitted log line is `"Error scraping post: <exception>"` — it does not
include the failing URL.  In the run below the first URL's fetch raises
`"boom"`; the only log line does not contain that URL, while the second URL is
still scraped. -/
theorem scrape_posts_log_url_cex :
    (scrape_posts cfgA fetchBoom 0 [urlOne, urlTwo] emptyState).log
      = ["Error scraping post: boom"] ∧
    pyContains "Error scraping post: boom" urlOne = false ∧
    pathExists (scrape_posts cfgA fetchBoom 0 [urlOne, urlTwo] emptyState).fs
      (mdPathFor cfgA urlTwo) = true := by
  refine ⟨by decide, by decide, by decide⟩

/-- C7 amended: when a URL's processing raises, the loop catches the
exception, emits the log line `"Error scraping post: "` followed by the
exception text (the failing URL itself is not part of the line), and continues
with the remaining URLs unchanged otherwise (provided the cap does not stop
the run at this URL). -/
theorem scrape_posts_continues_on_error (cfg : ScraperCfg) (fetch : String → FetchOutcome)
    (N : Nat) (url : String) (rest : List String) (st : ScrapeState) (msg : String)
    (hfetch : fetch url = .raise msg)
    (hnew : pathExists st.fs (mdPathFor cfg url) = false)
    (hcap : N = 0 ∨ st.count + 1 ≠ N) :
    scrape_posts_loop cfg fetch N (url :: rest) st
      = scrape_posts_loop cfg fetch N rest
          { st with
            log := st.log ++ ["Error scraping post: " ++ msg]
            count := st.count + 1
            visited := st.visited + 1 } := by
  have hstep : scrapeStep cfg fetch url st
      = ({ st with
          log := st.log ++ ["Error scraping post: " ++ msg]
          count := st.count + 1
          visited := st.visited + 1 }, true) := by
    simp [scrapeStep, hnew, hfetch]
  have heq : scrape_posts_loop cfg fetch N (url :: rest) st
      = if (scrapeStep cfg fetch url st).2 && (N != 0) &&
            ((scrapeStep cfg fetch url st).1.count == N) then
          (scrapeStep cfg fetch url st).1
        else scrape_posts_loop cfg fetch N rest (scrapeStep cfg fetch url st).1 := rfl
  rw [heq, hstep]
  rcases hcap with hc | hc
  · simp [hc]
  · simp [hc]

theorem scrape_posts_continues_on_error_witness :
    fetchBoom urlOne = .raise "boom" ∧
    pathExists emptyState.fs (mdPathFor cfgA urlOne) = false ∧
    scrape_posts_loop cfgA fetchBoom 0 [urlOne, urlTwo] emptyState
      = scrape_posts_loop cfgA fetchBoom 0 [urlTwo]
          { emptyState with
            log := emptyState.log ++ ["Error scraping post: " ++ "boom"]
            count := emptyState.count + 1
            visited := emptyState.visited + 1 } :=
  ⟨by decide, by decide,
    scrape_posts_continues_on_error cfgA fetchBoom 0 urlOne [urlTwo] emptyState "boom"
      (by decide) (by decide) (Or.inl rfl)⟩

theorem extract_defaults_witness :
    (extract_post_data id soupEmpty).title = "Untitled" ∧
    (extract_post_data id soupEmpty).subtitle = "" ∧
    (extract_post_data id soupEmpty).date = "Date not found" ∧
    (extract_post_data id soupNoKey).date = "Date not found" ∧
    (extract_post_data id soupBadDate).date = "Date not found" ∧
    (extract_post_data id soupEmpty).like_count = "0" ∧
    (extract_post_data id soupLike).like_count
      = if pyIsdigit (pyStrip " 42 ") then pyStrip " 42 " else "0" :=
  ⟨(extract_defaults id soupEmpty).1 rfl,
   (extract_defaults id soupEmpty).2.1 rfl,
   (extract_defaults id soupEmpty).2.2.1 rfl (by decide),
   (extract_defaults id soupNoKey).2.2.1 rfl (by decide),
   (extract_defaults id soupBadDate).2.2.1 rfl (by decide),
   (extract_defaults id soupEmpty).2.2.2.2.2 rfl,
   (extract_defaults id soupLike).2.2.2.2.1 " 42 " rfl⟩

end Substack
